import Mathlib

/-!
Verification of the color-interpolation and coordinate-normalization core of
`src/map.js` (an airport-traffic map over Chile).

JavaScript numbers are modelled as exact rationals (`ℚ`); `NaN`-producing or
crashing computations are modelled with `Option` (`none` = NaN / runtime
error).  String operations mirror the JavaScript string API on Lean `String`.
-/

namespace MapJS

/-! ### JavaScript string helpers -/

/-- JavaScript `s.substring(a, b)` (and `s.slice(a, b)`) for `0 ≤ a ≤ b`:
the characters from index `a` (inclusive) to `b` (exclusive), clipped to the
string's length. -/
def jsSubstring (s : String) (a b : ℕ) : String :=
  (s.take b).drop a

/-- Drop leading whitespace characters (the whitespace skipping that
JavaScript `parseFloat` / `Number` perform). -/
def skipWs : List Char → List Char
  | c :: r => if c.isWhitespace then skipWs r else c :: r
  | [] => []

/-- Consume an optional leading sign, returning the sign as `1` or `-1`
together with the remaining characters. -/
def parseSign (cs : List Char) : ℤ × List Char :=
  match cs with
  | c :: r => if c = '-' then (-1, r) else if c = '+' then (1, r) else (1, cs)
  | [] => (1, cs)

/-- Longest run of decimal digits at the head of the list, plus the rest. -/
def digitSpan : List Char → List Char × List Char
  | c :: r =>
    if c.isDigit then
      let p := digitSpan r
      (c :: p.1, p.2)
    else ([], c :: r)
  | [] => ([], [])

/-- Value of a run of decimal digit characters. -/
def digitsToNat (ds : List Char) : ℕ :=
  ds.foldl (fun a c => 10 * a + (c.toNat - 48)) 0

/-- Fractional digits of a decimal literal: if the head is `'.'`, consume it
and the digit run after it; otherwise consume nothing. -/
def fracSpan (cs : List Char) : List Char × List Char :=
  match cs with
  | c :: r => if c = '.' then digitSpan r else ([], cs)
  | [] => ([], cs)

/-- Exponent clause of a decimal literal: `e`/`E`, an optional sign and a
digit run.  If the digits are missing the clause is not consumed (JavaScript
stops parsing before the `e`). -/
def expSpan (cs : List Char) : ℤ × List Char :=
  match cs with
  | c :: r =>
    if c = 'e' ∨ c = 'E' then
      let s := parseSign r
      let e := digitSpan s.2
      if e.1.isEmpty then (0, cs) else (s.1 * (digitsToNat e.1 : ℤ), e.2)
    else (0, cs)
  | [] => (0, cs)

/-- The components of a parsed decimal literal: sign, integer part,
fractional digits' value, number of fractional digits, exponent. -/
structure FloatParts where
  sign : ℤ
  ip : ℕ
  fp : ℕ
  fd : ℕ
  ex : ℤ
deriving DecidableEq, Repr

/-- Rational value denoted by parsed decimal-literal components. -/
def FloatParts.val (p : FloatParts) : ℚ :=
  (p.sign : ℚ) * ((p.ip : ℚ) + (p.fp : ℚ) / 10 ^ p.fd) * 10 ^ p.ex

/-- Modelled from the spec (JavaScript built-in): the decimal-literal parse
underlying `parseFloat` / `Number`.  Parses an optional sign, a digit run, an
optional `'.'` with a digit run, and an optional exponent clause, returning
the parsed components and the unconsumed characters; `none` when no digit is
found (JavaScript's NaN).  Hexadecimal and `Infinity` literals are not
modelled: the strings `map.js` feeds these parsers are CSV decimal fields
and the 7-character repaired coordinate strings, which contain neither. -/
def parseFloatParts (cs : List Char) : Option (FloatParts × List Char) :=
  let s := parseSign cs
  let d := digitSpan s.2
  let f := fracSpan d.2
  if d.1.isEmpty ∧ f.1.isEmpty then none
  else
    let e := expSpan f.2
    some (⟨s.1, digitsToNat d.1, digitsToNat f.1, f.1.length, e.1⟩, e.2)

/-- Modelled from the spec (JavaScript built-in `parseFloat`): skip leading
whitespace, parse the longest decimal-literal prefix, ignore the rest;
`none` is NaN. -/
def parseFloat (s : String) : Option ℚ :=
  (parseFloatParts (skipWs s.data)).map fun x => x.1.val

/-- Modelled from the spec (JavaScript unary `+` / `Number`): the whole
trimmed string must be a decimal literal; the empty (or all-whitespace)
string converts to `0`; `none` is NaN. -/
def jsNumber (s : String) : Option ℚ :=
  let t := (skipWs (skipWs s.data.reverse).reverse)
  if t.isEmpty then some 0
  else
    match parseFloatParts t with
    | some (p, []) => some p.val
    | _ => none

/-! ### CoordinateNormalizer (`loadAirportData`, `map.js` lines 17–22) -/

/-- Line 17: `d.lat.toString().replace(/\./g, '')` — remove every `'.'`. -/
def stripDots (s : String) : String :=
  ⟨s.data.filter fun c => c ≠ '.'⟩

/-- Lines 20–21: re-insert a decimal point after the first three characters
(a leading minus sign counts) and keep three characters after it:
`str.substring(0, 3) + '.' + str.substring(3, 6)`. -/
def repair (s : String) : String :=
  jsSubstring s 0 3 ++ "." ++ jsSubstring s 3 6

/-- Lines 17–21: the coordinate repair applied to one raw field
(`parseFloat(latStr.substring(0, 3) + '.' + latStr.substring(3, 6))` after
stripping the dots). -/
def normalize (raw : String) : Option ℚ :=
  parseFloat (repair (stripDots raw))

/-! ### Airport records (`loadAirportData`, `map.js` lines 24–31) -/

/-- One raw CSV row as handed to the `csvData.map` callback: every field is
a string. -/
structure RawRow where
  codigo : String
  lat : String
  lon : String
  ops_2019 : String
  ops_2020 : String
  var_pct_20_vs_19 : String

/-- The record built for one airport (lines 24–31).  Numeric fields are
`Option ℚ`, `none` marking JavaScript NaN. -/
structure Airport where
  codigo : String
  lat : Option ℚ
  lon : Option ℚ
  ops_2019 : Option ℚ
  ops_2020 : Option ℚ
  reduction_pct : Option ℚ

/-- Lines 15–32: normalize one raw row.  `reduction_pct` is
`Math.abs(+d.var_pct_20_vs_19)`. -/
def mkAirport (d : RawRow) : Airport where
  codigo := d.codigo
  lat := normalize d.lat
  lon := normalize d.lon
  ops_2019 := jsNumber d.ops_2019
  ops_2020 := jsNumber d.ops_2020
  reduction_pct := (jsNumber d.var_pct_20_vs_19).map fun x => |x|

/-! ### ColorInterpolator (`createColorScale`, `map.js` lines 42–82) -/

/-- Value of one hexadecimal digit character, `none` otherwise. -/
def hexDigitVal (c : Char) : Option ℕ :=
  if '0' ≤ c ∧ c ≤ '9' then some (c.toNat - 48)
  else if 'a' ≤ c ∧ c ≤ 'f' then some (c.toNat - 87)
  else if 'A' ≤ c ∧ c ≤ 'F' then some (c.toNat - 55)
  else none

/-- Longest run of hexadecimal digits at the head of the list. -/
def hexSpan : List Char → List Char × List Char
  | c :: r =>
    if (hexDigitVal c).isSome then
      let p := hexSpan r
      (c :: p.1, p.2)
    else ([], c :: r)
  | [] => ([], [])

/-- Value of a run of hexadecimal digit characters. -/
def hexToNat (ds : List Char) : ℕ :=
  ds.foldl (fun a c => 16 * a + (hexDigitVal c).getD 0) 0

/-- Modelled from the spec (JavaScript built-in `parseInt(s, 16)`): skip
whitespace, optional sign, then the longest hexadecimal-digit run; `none`
(NaN) when no digit is found.  The optional `0x` marker is not modelled:
here the function only ever receives two-character slices of the palette's
hex colors. -/
def parseInt16 (s : String) : Option ℤ :=
  let sg := parseSign (skipWs s.data)
  let h := hexSpan sg.2
  if h.1.isEmpty then none else some (sg.1 * (hexToNat h.1 : ℤ))

/-- Lines 65–70: the `parseHex` arrow function.  `r`, `g`, `b` come from
`parseInt(hex.slice(1, 3), 16)`, `hex.slice(3, 5)` and `hex.slice(5, 7)`;
any further characters (such as a trailing alpha pair) are never read. -/
def parseHex (hex : String) : Option (ℤ × ℤ × ℤ) :=
  match parseInt16 (jsSubstring hex 1 3),
        parseInt16 (jsSubstring hex 3 5),
        parseInt16 (jsSubstring hex 5 7) with
  | some r, some g, some b => some (r, g, b)
  | _, _, _ => none

/-- Lines 43–50: the hard-coded palette of `(pos, color)` control points. -/
def palette : List (ℚ × String) :=
  [(0, "#4fc3f7"),
   (0.2, "#42a5f5"),
   (0.4, "#7e57c2"),
   (0.6, "#ac26c4ff"),
   (0.8, "#ec407a"),
   (1, "#ef5350")]

/-- Lines 55–62: the first adjacent pair `(colors[i], colors[i+1])` with
`t >= colors[i].pos && t <= colors[i+1].pos`; `none` when the loop finds no
pair (in JavaScript `lowerColor` then stays `undefined` and line 72 throws a
`TypeError`). -/
def findSegment (t : ℚ) : List (ℚ × String) → Option ((ℚ × String) × (ℚ × String))
  | a :: b :: rest =>
    if a.1 ≤ t ∧ t ≤ b.1 then some (a, b) else findSegment t (b :: rest)
  | _ => none

/-- Line 76: the smoothstep easing `localT * localT * (3 - 2 * localT)`. -/
def smoothstep (x : ℚ) : ℚ :=
  x * x * (3 - 2 * x)

/-- JavaScript `Math.round`: round half away from zero upward, i.e.
`⌊x + 1/2⌋`. -/
def jsRound (x : ℚ) : ℤ :=
  ⌊x + 1 / 2⌋

/-- Lines 77–79: one channel, `Math.round(lower + (upper - lower) * eased)`. -/
def interpChannel (lo hi : ℤ) (eased : ℚ) : ℤ :=
  jsRound ((lo : ℚ) + ((hi : ℚ) - (lo : ℚ)) * eased)

/-- Lines 53–79 of `createColorScale`: the `(r, g, b)` triple computed for a
given `t` (segment lookup, hex parsing, smoothstep easing, per-channel
rounding), before formatting. -/
def colorChannels (t : ℚ) : Option (ℤ × ℤ × ℤ) :=
  (findSegment t palette).bind fun s =>
    (parseHex s.1.2).bind fun l =>
      (parseHex s.2.2).bind fun u =>
        let localT := (t - s.1.1) / (s.2.1 - s.1.1)
        let eased := smoothstep localT
        some (interpChannel l.1 u.1 eased,
              interpChannel l.2.1 u.2.1 eased,
              interpChannel l.2.2 u.2.2 eased)

/-- Line 81: the returned template string `rgb(r, g, b)`. -/
def rgbString (r g b : ℤ) : String :=
  "rgb(" ++ toString r ++ ", " ++ toString g ++ ", " ++ toString b ++ ")"

/-- Lines 42–82: the whole `createColorScale` function. -/
def createColorScale (t : ℚ) : Option String :=
  (colorChannels t).map fun c => rgbString c.1 c.2.1 c.2.2

/-! ### Legend sampling (`createLegend`, `map.js` lines 274–279) -/

/-- Modelled from the spec (d3 built-in `d3.range(start, stop, step)` on
naturals): `start, start + step, …` while below `stop`. -/
def d3Range (start stp step : ℕ) : List ℕ :=
  (List.range ((stp - start + step - 1) / step)).map fun k => start + k * step

/-- Lines 274–279: the legend's gradient stops — for each `stop` in
`d3.range(0, 101, 2)` an `(offset, stop-color)` pair
`(`${stop}%`, createColorScale(stop / 100))`. -/
def legendStops : List (String × Option String) :=
  (d3Range 0 101 2).map fun s : ℕ =>
    (toString s ++ "%", createColorScale ((s : ℚ) / 100))

/-! ### Spec-side definitions -/

/-- Follows the spec's words (section 4.1, steps 2–4), for comparison with
`colorChannels`: on the palette segment from control point `i` to `i + 1`,
`localT = (t - lower.pos) / (upper.pos - lower.pos)`,
`eased = localT² · (3 - 2·localT)`, and each channel is
`round(lower + (upper - lower) · eased)`. -/
def specSegmentColor (i : ℕ) (t : ℚ) : Option (ℤ × ℤ × ℤ) :=
  let lower := palette.getD i (0, "")
  let upper := palette.getD (i + 1) (0, "")
  match parseHex lower.2, parseHex upper.2 with
  | some l, some u =>
    let localT := (t - lower.1) / (upper.1 - lower.1)
    let eased := smoothstep localT
    some (interpChannel l.1 u.1 eased,
          interpChannel l.2.1 u.2.1 eased,
          interpChannel l.2.2 u.2.2 eased)
  | _, _ => none

/-- Modelled from the spec (section 8): Chile's approximate bounding box for
the round-trip scenario. -/
def chileBBox (lat lon : ℚ) : Prop :=
  -56 ≤ lat ∧ lat ≤ -17 ∧ -76 ≤ lon ∧ lon ≤ -66

/-- Monotonicity relation used by the spec for one channel: weakly
increasing when the segment's endpoints increase, weakly decreasing when
they decrease. -/
def chanMono (lo hi a b : ℤ) : Prop :=
  (lo ≤ hi → a ≤ b) ∧ (hi ≤ lo → b ≤ a)

/-- The spec's round-trip scenario row (section 8); the identifier value is
immaterial. -/
def sampleRow : RawRow :=
  ⟨"SCEL", "-336695", "-706453", "100", "40", "-60"⟩

/-! ### Evaluation lemmas for the palette's hex colors -/

lemma parseHex_c0 : parseHex "#4fc3f7" = some (79, 195, 247) := by decide

lemma parseHex_c1 : parseHex "#42a5f5" = some (66, 165, 245) := by decide

lemma parseHex_c2 : parseHex "#7e57c2" = some (126, 87, 194) := by decide

lemma parseHex_c3 : parseHex "#ac26c4ff" = some (172, 38, 196) := by decide

lemma parseHex_c4 : parseHex "#ec407a" = some (236, 64, 122) := by decide

lemma parseHex_c5 : parseHex "#ef5350" = some (239, 83, 80) := by decide

/-! ### Arithmetic facts about smoothstep and channel interpolation -/

lemma smoothstep_le {x y : ℚ} (hx : 0 ≤ x) (hxy : x ≤ y) (hy : y ≤ 1) :
    smoothstep x ≤ smoothstep y := by
  have hy0 : 0 ≤ y := le_trans hx hxy
  have hx1 : x ≤ 1 := le_trans hxy hy
  have h1 : 0 ≤ x * (1 - x) := mul_nonneg hx (by linarith)
  have h2 : 0 ≤ y * (1 - y) := mul_nonneg hy0 (by linarith)
  have h3 : 0 ≤ (x + y) * (2 - x - y) := mul_nonneg (by linarith) (by linarith)
  have hg : 0 ≤ (y - x) * (3 * x + 3 * y - 2 * x ^ 2 - 2 * x * y - 2 * y ^ 2) :=
    mul_nonneg (by linarith) (by nlinarith [h1, h2, h3])
  simp only [smoothstep]
  nlinarith [hg]

lemma smoothstep_nonneg {x : ℚ} (hx : 0 ≤ x) (hx1 : x ≤ 1) :
    0 ≤ smoothstep x := by
  simp only [smoothstep]
  nlinarith

lemma smoothstep_le_one {x : ℚ} (hx : 0 ≤ x) (hx1 : x ≤ 1) :
    smoothstep x ≤ 1 := by
  simp only [smoothstep]
  nlinarith [sq_nonneg (1 - x), mul_nonneg hx hx]

lemma jsRound_mono {x y : ℚ} (h : x ≤ y) : jsRound x ≤ jsRound y :=
  Int.floor_le_floor (by linarith)

lemma localT_nonneg {p q t : ℚ} (hpq : 0 < q - p) (h1 : p ≤ t) :
    0 ≤ (t - p) / (q - p) :=
  div_nonneg (by linarith) (le_of_lt hpq)

lemma localT_le_one {p q t : ℚ} (hpq : 0 < q - p) (h2 : t ≤ q) :
    (t - p) / (q - p) ≤ 1 :=
  (div_le_one hpq).2 (by linarith)

lemma eased_mono_seg {p q t1 t2 : ℚ} (hpq : 0 < q - p) (h1 : p ≤ t1)
    (h12 : t1 ≤ t2) (h2 : t2 ≤ q) :
    smoothstep ((t1 - p) / (q - p)) ≤ smoothstep ((t2 - p) / (q - p)) :=
  smoothstep_le (localT_nonneg hpq h1)
    ((div_le_div_right hpq).2 (by linarith))
    (localT_le_one hpq h2)

lemma interpChannel_mono (lo hi : ℤ) {e1 e2 : ℚ} (h : e1 ≤ e2) :
    chanMono lo hi (interpChannel lo hi e1) (interpChannel lo hi e2) := by
  constructor
  · intro hle
    apply jsRound_mono
    have hd : (0 : ℚ) ≤ (hi : ℚ) - (lo : ℚ) := by
      rw [sub_nonneg]
      exact_mod_cast hle
    nlinarith
  · intro hle
    apply jsRound_mono
    have hd : (hi : ℚ) - (lo : ℚ) ≤ 0 := by
      rw [sub_nonpos]
      exact_mod_cast hle
    nlinarith

lemma interpChannel_bounds (lo hi : ℤ) {e : ℚ} (he0 : 0 ≤ e) (he1 : e ≤ 1)
    (hlo0 : 0 ≤ lo) (hlo255 : lo ≤ 255) (hhi0 : 0 ≤ hi) (hhi255 : hi ≤ 255) :
    0 ≤ interpChannel lo hi e ∧ interpChannel lo hi e ≤ 255 := by
  have hlo0' : (0 : ℚ) ≤ (lo : ℚ) := by exact_mod_cast hlo0
  have hlo255' : (lo : ℚ) ≤ 255 := by exact_mod_cast hlo255
  have hhi0' : (0 : ℚ) ≤ (hi : ℚ) := by exact_mod_cast hhi0
  have hhi255' : (hi : ℚ) ≤ 255 := by exact_mod_cast hhi255
  have hx0 : (0 : ℚ) ≤ (lo : ℚ) + ((hi : ℚ) - (lo : ℚ)) * e := by
    nlinarith [mul_nonneg (sub_nonneg.2 he1) hlo0', mul_nonneg he0 hhi0']
  have hx255 : (lo : ℚ) + ((hi : ℚ) - (lo : ℚ)) * e ≤ 255 := by
    nlinarith [mul_nonneg (sub_nonneg.2 he1) (sub_nonneg.2 hlo255'),
      mul_nonneg he0 (sub_nonneg.2 hhi255')]
  constructor
  · exact Int.le_floor.2 (by push_cast; linarith)
  · have : jsRound ((lo : ℚ) + ((hi : ℚ) - (lo : ℚ)) * e) < 256 :=
      Int.floor_lt.2 (by push_cast; linarith)
    simp only [interpChannel]
    omega

/-! ### Segment lookup on the concrete palette -/

lemma findSegment_seg0 {t : ℚ} (h0 : (0 : ℚ) ≤ t) (h1 : t ≤ 0.2) :
    findSegment t palette = some ((0, "#4fc3f7"), (0.2, "#42a5f5")) := by
  simp only [palette, findSegment]
  rw [if_pos ⟨h0, h1⟩]

lemma findSegment_seg1 {t : ℚ} (h0 : (0.2 : ℚ) < t) (h1 : t ≤ 0.4) :
    findSegment t palette = some ((0.2, "#42a5f5"), (0.4, "#7e57c2")) := by
  have hn0 : ¬((0 : ℚ) ≤ t ∧ t ≤ 0.2) := by rintro ⟨-, h⟩; norm_num at h h0; linarith
  simp only [palette, findSegment]
  rw [if_neg hn0, if_pos ⟨le_of_lt h0, h1⟩]

lemma findSegment_seg2 {t : ℚ} (h0 : (0.4 : ℚ) < t) (h1 : t ≤ 0.6) :
    findSegment t palette = some ((0.4, "#7e57c2"), (0.6, "#ac26c4ff")) := by
  have hn0 : ¬((0 : ℚ) ≤ t ∧ t ≤ 0.2) := by rintro ⟨-, h⟩; norm_num at h h0; linarith
  have hn1 : ¬((0.2 : ℚ) ≤ t ∧ t ≤ 0.4) := by rintro ⟨-, h⟩; norm_num at h h0; linarith
  simp only [palette, findSegment]
  rw [if_neg hn0, if_neg hn1, if_pos ⟨le_of_lt h0, h1⟩]

lemma findSegment_seg3 {t : ℚ} (h0 : (0.6 : ℚ) < t) (h1 : t ≤ 0.8) :
    findSegment t palette = some ((0.6, "#ac26c4ff"), (0.8, "#ec407a")) := by
  have hn0 : ¬((0 : ℚ) ≤ t ∧ t ≤ 0.2) := by rintro ⟨-, h⟩; norm_num at h h0; linarith
  have hn1 : ¬((0.2 : ℚ) ≤ t ∧ t ≤ 0.4) := by rintro ⟨-, h⟩; norm_num at h h0; linarith
  have hn2 : ¬((0.4 : ℚ) ≤ t ∧ t ≤ 0.6) := by rintro ⟨-, h⟩; norm_num at h h0; linarith
  simp only [palette, findSegment]
  rw [if_neg hn0, if_neg hn1, if_neg hn2, if_pos ⟨le_of_lt h0, h1⟩]

lemma findSegment_seg4 {t : ℚ} (h0 : (0.8 : ℚ) < t) (h1 : t ≤ 1) :
    findSegment t palette = some ((0.8, "#ec407a"), (1, "#ef5350")) := by
  have hn0 : ¬((0 : ℚ) ≤ t ∧ t ≤ 0.2) := by rintro ⟨-, h⟩; norm_num at h h0; linarith
  have hn1 : ¬((0.2 : ℚ) ≤ t ∧ t ≤ 0.4) := by rintro ⟨-, h⟩; norm_num at h h0; linarith
  have hn2 : ¬((0.4 : ℚ) ≤ t ∧ t ≤ 0.6) := by rintro ⟨-, h⟩; norm_num at h h0; linarith
  have hn3 : ¬((0.6 : ℚ) ≤ t ∧ t ≤ 0.8) := by rintro ⟨-, h⟩; norm_num at h h0; linarith
  simp only [palette, findSegment]
  rw [if_neg hn0, if_neg hn1, if_neg hn2, if_neg hn3, if_pos ⟨le_of_lt h0, h1⟩]

lemma findSegment_none {t : ℚ} (h : t < 0 ∨ 1 < t) :
    findSegment t palette = none := by
  simp only [palette, findSegment]
  rw [if_neg, if_neg, if_neg, if_neg, if_neg]
  all_goals rintro ⟨ha, hb⟩; rcases h with h | h <;> (norm_num at ha hb; linarith)

/-! ### The color channels at the six control points -/

lemma cpoint_0 : colorChannels 0 = some (79, 195, 247) := by
  norm_num [colorChannels, findSegment, palette, parseHex_c0, parseHex_c1,
    Option.some_bind, smoothstep, interpChannel, jsRound]

lemma cpoint_1 : colorChannels 0.2 = some (66, 165, 245) := by
  norm_num [colorChannels, findSegment, palette, parseHex_c0, parseHex_c1,
    Option.some_bind, smoothstep, interpChannel, jsRound]

lemma cpoint_2 : colorChannels 0.4 = some (126, 87, 194) := by
  norm_num [colorChannels, findSegment, palette, parseHex_c1, parseHex_c2,
    Option.some_bind, smoothstep, interpChannel, jsRound]

lemma cpoint_3 : colorChannels 0.6 = some (172, 38, 196) := by
  norm_num [colorChannels, findSegment, palette, parseHex_c2, parseHex_c3,
    Option.some_bind, smoothstep, interpChannel, jsRound]

lemma cpoint_4 : colorChannels 0.8 = some (236, 64, 122) := by
  norm_num [colorChannels, findSegment, palette, parseHex_c3, parseHex_c4,
    Option.some_bind, smoothstep, interpChannel, jsRound]

lemma cpoint_5 : colorChannels 1 = some (239, 83, 80) := by
  norm_num [colorChannels, findSegment, palette, parseHex_c4, parseHex_c5,
    Option.some_bind, smoothstep, interpChannel, jsRound]

/-! ### The channels over each whole segment (boundaries included) -/

lemma channels_seg0 {t : ℚ} (h0 : (0 : ℚ) ≤ t) (h1 : t ≤ 0.2) :
    colorChannels t =
      some (interpChannel 79 66 (smoothstep ((t - 0) / (0.2 - 0))),
            interpChannel 195 165 (smoothstep ((t - 0) / (0.2 - 0))),
            interpChannel 247 245 (smoothstep ((t - 0) / (0.2 - 0)))) := by
  simp only [colorChannels, findSegment_seg0 h0 h1, Option.some_bind,
    parseHex_c0, parseHex_c1]

lemma channels_seg1 {t : ℚ} (h0 : (0.2 : ℚ) ≤ t) (h1 : t ≤ 0.4) :
    colorChannels t =
      some (interpChannel 66 126 (smoothstep ((t - 0.2) / (0.4 - 0.2))),
            interpChannel 165 87 (smoothstep ((t - 0.2) / (0.4 - 0.2))),
            interpChannel 245 194 (smoothstep ((t - 0.2) / (0.4 - 0.2)))) := by
  rcases eq_or_lt_of_le h0 with heq | hlt
  · rw [← heq, cpoint_1]
    norm_num [smoothstep, interpChannel, jsRound]
  · simp only [colorChannels, findSegment_seg1 hlt h1, Option.some_bind,
      parseHex_c1, parseHex_c2]

lemma channels_seg2 {t : ℚ} (h0 : (0.4 : ℚ) ≤ t) (h1 : t ≤ 0.6) :
    colorChannels t =
      some (interpChannel 126 172 (smoothstep ((t - 0.4) / (0.6 - 0.4))),
            interpChannel 87 38 (smoothstep ((t - 0.4) / (0.6 - 0.4))),
            interpChannel 194 196 (smoothstep ((t - 0.4) / (0.6 - 0.4)))) := by
  rcases eq_or_lt_of_le h0 with heq | hlt
  · rw [← heq, cpoint_2]
    norm_num [smoothstep, interpChannel, jsRound]
  · simp only [colorChannels, findSegment_seg2 hlt h1, Option.some_bind,
      parseHex_c2, parseHex_c3]

lemma channels_seg3 {t : ℚ} (h0 : (0.6 : ℚ) ≤ t) (h1 : t ≤ 0.8) :
    colorChannels t =
      some (interpChannel 172 236 (smoothstep ((t - 0.6) / (0.8 - 0.6))),
            interpChannel 38 64 (smoothstep ((t - 0.6) / (0.8 - 0.6))),
            interpChannel 196 122 (smoothstep ((t - 0.6) / (0.8 - 0.6)))) := by
  rcases eq_or_lt_of_le h0 with heq | hlt
  · rw [← heq, cpoint_3]
    norm_num [smoothstep, interpChannel, jsRound]
  · simp only [colorChannels, findSegment_seg3 hlt h1, Option.some_bind,
      parseHex_c3, parseHex_c4]

lemma channels_seg4 {t : ℚ} (h0 : (0.8 : ℚ) ≤ t) (h1 : t ≤ 1) :
    colorChannels t =
      some (interpChannel 236 239 (smoothstep ((t - 0.8) / (1 - 0.8))),
            interpChannel 64 83 (smoothstep ((t - 0.8) / (1 - 0.8))),
            interpChannel 122 80 (smoothstep ((t - 0.8) / (1 - 0.8)))) := by
  rcases eq_or_lt_of_le h0 with heq | hlt
  · rw [← heq, cpoint_4]
    norm_num [smoothstep, interpChannel, jsRound]
  · simp only [colorChannels, findSegment_seg4 hlt h1, Option.some_bind,
      parseHex_c4, parseHex_c5]

/-! ### Evaluation lemmas for the coordinate repair -/

lemma normalize_lat : normalize "-336695" = some (-33.669) := by
  have hp : parseFloatParts (skipWs "-33.669".data) =
      some (⟨-1, 33, 669, 3, 0⟩, []) := by decide
  have hr : repair (stripDots "-336695") = "-33.669" := by decide
  rw [normalize, hr, parseFloat, hp, Option.map_some']
  congr 1
  norm_num [FloatParts.val]

lemma normalize_lon : normalize "-706453" = some (-70.645) := by
  have hp : parseFloatParts (skipWs "-70.645".data) =
      some (⟨-1, 70, 645, 3, 0⟩, []) := by decide
  have hr : repair (stripDots "-706453") = "-70.645" := by decide
  rw [normalize, hr, parseFloat, hp, Option.map_some']
  congr 1
  norm_num [FloatParts.val]

/-! ### The spec's segment formula, unfolded per segment -/

lemma specSegmentColor_0 (t : ℚ) :
    specSegmentColor 0 t =
      some (interpChannel 79 66 (smoothstep ((t - 0) / (0.2 - 0))),
            interpChannel 195 165 (smoothstep ((t - 0) / (0.2 - 0))),
            interpChannel 247 245 (smoothstep ((t - 0) / (0.2 - 0)))) := rfl

lemma specSegmentColor_1 (t : ℚ) :
    specSegmentColor 1 t =
      some (interpChannel 66 126 (smoothstep ((t - 0.2) / (0.4 - 0.2))),
            interpChannel 165 87 (smoothstep ((t - 0.2) / (0.4 - 0.2))),
            interpChannel 245 194 (smoothstep ((t - 0.2) / (0.4 - 0.2)))) := rfl

lemma specSegmentColor_2 (t : ℚ) :
    specSegmentColor 2 t =
      some (interpChannel 126 172 (smoothstep ((t - 0.4) / (0.6 - 0.4))),
            interpChannel 87 38 (smoothstep ((t - 0.4) / (0.6 - 0.4))),
            interpChannel 194 196 (smoothstep ((t - 0.4) / (0.6 - 0.4)))) := rfl

lemma specSegmentColor_3 (t : ℚ) :
    specSegmentColor 3 t =
      some (interpChannel 172 236 (smoothstep ((t - 0.6) / (0.8 - 0.6))),
            interpChannel 38 64 (smoothstep ((t - 0.6) / (0.8 - 0.6))),
            interpChannel 196 122 (smoothstep ((t - 0.6) / (0.8 - 0.6)))) := rfl

lemma specSegmentColor_4 (t : ℚ) :
    specSegmentColor 4 t =
      some (interpChannel 236 239 (smoothstep ((t - 0.8) / (1 - 0.8))),
            interpChannel 64 83 (smoothstep ((t - 0.8) / (1 - 0.8))),
            interpChannel 122 80 (smoothstep ((t - 0.8) / (1 - 0.8)))) := rfl

/-! ### Claims -/

/-- C1: for every `t` in a palette segment `[lower.pos, upper.pos]`,
`createColorScale t` returns the color whose R, G and B channels each equal
`round(lower + (upper - lower) * eased)` with
`localT = (t - lower.pos) / (upper.pos - lower.pos)` and
`eased = localT² * (3 - 2 * localT)` — the code agrees with the spec's
interpolation formula on every segment (at a shared boundary both segments'
formulas give the control point's exact color, so the first-match lookup is
harmless). -/
theorem spec_C1 (i : ℕ) (t : ℚ) (hk : i + 1 < palette.length)
    (hlo : (palette.getD i (0, "")).1 ≤ t)
    (hhi : t ≤ (palette.getD (i + 1) (0, "")).1) :
    colorChannels t = specSegmentColor i t ∧
    createColorScale t = (specSegmentColor i t).map fun c => rgbString c.1 c.2.1 c.2.2 := by
  have hk5 : i < 5 := by
    have hlen : palette.length = 6 := rfl
    omega
  have main : colorChannels t = specSegmentColor i t := by
    interval_cases i
    · rw [channels_seg0 hlo hhi, specSegmentColor_0]
    · rw [channels_seg1 hlo hhi, specSegmentColor_1]
    · rw [channels_seg2 hlo hhi, specSegmentColor_2]
    · rw [channels_seg3 hlo hhi, specSegmentColor_3]
    · rw [channels_seg4 hlo hhi, specSegmentColor_4]
  refine ⟨main, ?_⟩
  rw [createColorScale, main]

/-- Witness for C1: the segment `[0, 0.2]` at `t = 1/10`. -/
theorem spec_C1_witness :
    colorChannels (1 / 10) = specSegmentColor 0 (1 / 10) ∧
    createColorScale (1 / 10) =
      (specSegmentColor 0 (1 / 10)).map fun c => rgbString c.1 c.2.1 c.2.2 :=
  spec_C1 0 (1 / 10) (by norm_num [palette])
    (by show (0 : ℚ) ≤ 1 / 10; norm_num)
    (by show (1 : ℚ) / 10 ≤ 0.2; norm_num)

/-- C2: at each of the six control-point positions `createColorScale`
returns exactly that control point's color; in particular
`colorAt 0 = rgb(79, 195, 247)`, `colorAt 0.6 = rgb(172, 38, 196)` and
`colorAt 1 = rgb(239, 83, 80)`. -/
theorem spec_C2 :
    createColorScale 0 = some "rgb(79, 195, 247)" ∧
    createColorScale 0.2 = some "rgb(66, 165, 245)" ∧
    createColorScale 0.4 = some "rgb(126, 87, 194)" ∧
    createColorScale 0.6 = some "rgb(172, 38, 196)" ∧
    createColorScale 0.8 = some "rgb(236, 64, 122)" ∧
    createColorScale 1 = some "rgb(239, 83, 80)" := by
  refine ⟨?_, ?_, ?_, ?_, ?_, ?_⟩
  · rw [createColorScale, cpoint_0]; decide
  · rw [createColorScale, cpoint_1]; decide
  · rw [createColorScale, cpoint_2]; decide
  · rw [createColorScale, cpoint_3]; decide
  · rw [createColorScale, cpoint_4]; decide
  · rw [createColorScale, cpoint_5]; decide

/-- C3: `normalize` strips every `'.'`, re-inserts one decimal point after
the first three characters (the minus sign counting), and parses the
result; on `"-336695"` this yields `-33.669`. -/
theorem spec_C3 :
    normalize "-336695" = some (-33.669) ∧
    stripDots "-336695" = "-336695" ∧
    repair (stripDots "-336695") = "-33.669" :=
  ⟨normalize_lat, by decide, by decide⟩

/-- Counterexample to C4 as stated: at `t = -1` the segment search finds no
pair, so `createColorScale` fails (`none`, a thrown `TypeError` in the
JavaScript) instead of clamping to the first palette color. -/
theorem spec_C4_cex :
    createColorScale (-1) = none ∧
    createColorScale (-1) ≠ some (rgbString 79 195 247) := by
  have h : findSegment (-1 : ℚ) palette = none :=
    findSegment_none (Or.inl (by norm_num))
  rw [createColorScale, colorChannels, h]
  exact ⟨rfl, by simp⟩

/-- C4 as amended: for every `t` outside `[0, 1]` the loop finds no segment
and `createColorScale` fails (`undefined` access in the JavaScript) — it
does not clamp. -/
theorem spec_C4 (t : ℚ) (h : t < 0 ∨ 1 < t) : createColorScale t = none := by
  rw [createColorScale, colorChannels, findSegment_none h]
  rfl

/-- Witness for C4 (amended): `t = 2`. -/
theorem spec_C4_witness : createColorScale 2 = none :=
  spec_C4 2 (Or.inr (by norm_num))

/-- C5: at each interior control-point boundary the formula of the segment
ending there and the formula of the segment starting there both give the
control point's exact channel values (eased 1 and 0 respectively), and the
code's `colorChannels` agrees — the scale is continuous at the boundaries. -/
theorem spec_C5 :
    (specSegmentColor 0 0.2 = some (66, 165, 245) ∧
     specSegmentColor 1 0.2 = some (66, 165, 245) ∧
     colorChannels 0.2 = some (66, 165, 245)) ∧
    (specSegmentColor 1 0.4 = some (126, 87, 194) ∧
     specSegmentColor 2 0.4 = some (126, 87, 194) ∧
     colorChannels 0.4 = some (126, 87, 194)) ∧
    (specSegmentColor 2 0.6 = some (172, 38, 196) ∧
     specSegmentColor 3 0.6 = some (172, 38, 196) ∧
     colorChannels 0.6 = some (172, 38, 196)) ∧
    (specSegmentColor 3 0.8 = some (236, 64, 122) ∧
     specSegmentColor 4 0.8 = some (236, 64, 122) ∧
     colorChannels 0.8 = some (236, 64, 122)) := by
  refine ⟨⟨?_, ?_, cpoint_1⟩, ⟨?_, ?_, cpoint_2⟩, ⟨?_, ?_, cpoint_3⟩,
    ⟨?_, ?_, cpoint_4⟩⟩ <;>
    simp only [specSegmentColor_0, specSegmentColor_1, specSegmentColor_2,
      specSegmentColor_3, specSegmentColor_4] <;>
    norm_num [smoothstep, interpChannel, jsRound]

/-- C6: within any one palette segment the rounded, smoothstep-eased channel
interpolation is weakly monotone in `t`, increasing when the segment's
endpoint channel goes up and decreasing when it goes down. -/
theorem spec_C6 (i : ℕ) (t1 t2 : ℚ) (hk : i + 1 < palette.length)
    (ht1 : (palette.getD i (0, "")).1 ≤ t1) (h12 : t1 < t2)
    (ht2 : t2 ≤ (palette.getD (i + 1) (0, "")).1)
    (l u : ℤ × ℤ × ℤ)
    (hl : parseHex (palette.getD i (0, "")).2 = some l)
    (hu : parseHex (palette.getD (i + 1) (0, "")).2 = some u) :
    ∃ c1 c2 : ℤ × ℤ × ℤ,
      colorChannels t1 = some c1 ∧ colorChannels t2 = some c2 ∧
      chanMono l.1 u.1 c1.1 c2.1 ∧
      chanMono l.2.1 u.2.1 c1.2.1 c2.2.1 ∧
      chanMono l.2.2 u.2.2 c1.2.2 c2.2.2 := by
  have hk5 : i < 5 := by
    have hlen : palette.length = 6 := rfl
    omega
  have h12' := le_of_lt h12
  interval_cases i
  · have hl' : parseHex "#4fc3f7" = some l := hl
    have hu' : parseHex "#42a5f5" = some u := hu
    rw [parseHex_c0] at hl'
    rw [parseHex_c1] at hu'
    obtain rfl := (Option.some.inj hl').symm
    obtain rfl := (Option.some.inj hu').symm
    have ha : (0 : ℚ) ≤ t1 := ht1
    have hb : t2 ≤ 0.2 := ht2
    have hm := eased_mono_seg (show (0 : ℚ) < 0.2 - 0 by norm_num) ha h12' hb
    exact ⟨_, _, channels_seg0 ha (le_trans h12' hb),
      channels_seg0 (le_trans ha h12') hb,
      interpChannel_mono 79 66 hm, interpChannel_mono 195 165 hm,
      interpChannel_mono 247 245 hm⟩
  · have hl' : parseHex "#42a5f5" = some l := hl
    have hu' : parseHex "#7e57c2" = some u := hu
    rw [parseHex_c1] at hl'
    rw [parseHex_c2] at hu'
    obtain rfl := (Option.some.inj hl').symm
    obtain rfl := (Option.some.inj hu').symm
    have ha : (0.2 : ℚ) ≤ t1 := ht1
    have hb : t2 ≤ 0.4 := ht2
    have hm := eased_mono_seg (show (0 : ℚ) < 0.4 - 0.2 by norm_num) ha h12' hb
    exact ⟨_, _, channels_seg1 ha (le_trans h12' hb),
      channels_seg1 (le_trans ha h12') hb,
      interpChannel_mono 66 126 hm, interpChannel_mono 165 87 hm,
      interpChannel_mono 245 194 hm⟩
  · have hl' : parseHex "#7e57c2" = some l := hl
    have hu' : parseHex "#ac26c4ff" = some u := hu
    rw [parseHex_c2] at hl'
    rw [parseHex_c3] at hu'
    obtain rfl := (Option.some.inj hl').symm
    obtain rfl := (Option.some.inj hu').symm
    have ha : (0.4 : ℚ) ≤ t1 := ht1
    have hb : t2 ≤ 0.6 := ht2
    have hm := eased_mono_seg (show (0 : ℚ) < 0.6 - 0.4 by norm_num) ha h12' hb
    exact ⟨_, _, channels_seg2 ha (le_trans h12' hb),
      channels_seg2 (le_trans ha h12') hb,
      interpChannel_mono 126 172 hm, interpChannel_mono 87 38 hm,
      interpChannel_mono 194 196 hm⟩
  · have hl' : parseHex "#ac26c4ff" = some l := hl
    have hu' : parseHex "#ec407a" = some u := hu
    rw [parseHex_c3] at hl'
    rw [parseHex_c4] at hu'
    obtain rfl := (Option.some.inj hl').symm
    obtain rfl := (Option.some.inj hu').symm
    have ha : (0.6 : ℚ) ≤ t1 := ht1
    have hb : t2 ≤ 0.8 := ht2
    have hm := eased_mono_seg (show (0 : ℚ) < 0.8 - 0.6 by norm_num) ha h12' hb
    exact ⟨_, _, channels_seg3 ha (le_trans h12' hb),
      channels_seg3 (le_trans ha h12') hb,
      interpChannel_mono 172 236 hm, interpChannel_mono 38 64 hm,
      interpChannel_mono 196 122 hm⟩
  · have hl' : parseHex "#ec407a" = some l := hl
    have hu' : parseHex "#ef5350" = some u := hu
    rw [parseHex_c4] at hl'
    rw [parseHex_c5] at hu'
    obtain rfl := (Option.some.inj hl').symm
    obtain rfl := (Option.some.inj hu').symm
    have ha : (0.8 : ℚ) ≤ t1 := ht1
    have hb : t2 ≤ 1 := ht2
    have hm := eased_mono_seg (show (0 : ℚ) < 1 - 0.8 by norm_num) ha h12' hb
    exact ⟨_, _, channels_seg4 ha (le_trans h12' hb),
      channels_seg4 (le_trans ha h12') hb,
      interpChannel_mono 236 239 hm, interpChannel_mono 64 83 hm,
      interpChannel_mono 122 80 hm⟩

/-- Witness for C6: the first segment at `t1 = 0 < t2 = 1/10`. -/
theorem spec_C6_witness :
    ∃ c1 c2 : ℤ × ℤ × ℤ,
      colorChannels 0 = some c1 ∧ colorChannels (1 / 10) = some c2 ∧
      chanMono 79 66 c1.1 c2.1 ∧
      chanMono 195 165 c1.2.1 c2.2.1 ∧
      chanMono 247 245 c1.2.2 c2.2.2 :=
  spec_C6 0 0 (1 / 10) (by norm_num [palette])
    (by show (0 : ℚ) ≤ 0; norm_num) (by norm_num)
    (by show (1 : ℚ) / 10 ≤ 0.2; norm_num)
    (79, 195, 247) (66, 165, 245) (by decide) (by decide)

/-- Counterexample to C7 as stated: `"12a456"` still contains the
non-numeric character `'a'` after separator stripping, yet `normalize`
returns `12`, not NaN — `parseFloat` parses the numeric prefix of the
repaired string `"12a.456"` and ignores the rest. -/
theorem spec_C7_cex :
    normalize "12a456" = some 12 ∧ normalize "12a456" ≠ none := by
  have hp : parseFloatParts (skipWs (repair (stripDots "12a456")).data) =
      some (⟨1, 12, 0, 0, 0⟩, ['a', '.', '4', '5', '6']) := by decide
  have hv : normalize "12a456" = some ((⟨1, 12, 0, 0, 0⟩ : FloatParts).val) := by
    rw [normalize, parseFloat, hp, Option.map_some']
  rw [hv]
  refine ⟨?_, by simp⟩
  congr 1
  norm_num [FloatParts.val]

/-- C7 as amended: `normalize` returns NaN (`none`) when the repaired
string has no numeric prefix at all — its first character is not a digit,
a sign, a decimal point or whitespace.  (Non-numeric characters after a
numeric prefix are ignored, as the counterexample shows.) -/
theorem spec_C7 (s : String) (c : Char) (rest : List Char)
    (h : (repair (stripDots s)).data = c :: rest)
    (hd : c.isDigit = false) (hw : c.isWhitespace = false)
    (hp : c ≠ '+') (hm : c ≠ '-') (hq : c ≠ '.') :
    normalize s = none := by
  have hskip : skipWs (c :: rest) = c :: rest := by
    rw [skipWs, if_neg]
    simp [hw]
  have hsign : parseSign (c :: rest) = (1, c :: rest) := by
    simp only [parseSign]
    rw [if_neg hm, if_neg hp]
  have hdig : digitSpan (c :: rest) = ([], c :: rest) := by
    rw [digitSpan, if_neg]
    simp [hd]
  have hfrac : fracSpan (c :: rest) = ([], c :: rest) := by
    simp only [fracSpan]
    rw [if_neg hq]
  rw [normalize, parseFloat, h, hskip]
  simp [parseFloatParts, hsign, hdig, hfrac]

/-- Witness for C7 (amended): `"abc456"` repairs to `"abc.456"`, whose
first character `'a'` is not numeric, and normalizes to NaN. -/
theorem spec_C7_witness : normalize "abc456" = none :=
  spec_C7 "abc456" 'a' "bc.456".data (by decide) (by decide) (by decide)
    (by decide) (by decide) (by decide)

/-- C8: every airport record's `reduction_pct` is an absolute value, hence
nonnegative whenever it is a number at all; and the spec's round-trip row
normalizes to `reduction_pct = 60` with coordinates `(-33.669, -70.645)`,
inside Chile's approximate bounding box. -/
theorem spec_C8 :
    (∀ (d : RawRow) (x : ℚ), (mkAirport d).reduction_pct = some x → 0 ≤ x) ∧
    (mkAirport sampleRow).reduction_pct = some 60 ∧
    (mkAirport sampleRow).lat = some (-33.669) ∧
    (mkAirport sampleRow).lon = some (-70.645) ∧
    chileBBox (-33.669) (-70.645) := by
  refine ⟨?_, ?_, normalize_lat, normalize_lon, by norm_num [chileBBox]⟩
  · intro d x h
    simp only [mkAirport] at h
    obtain ⟨y, -, rfl⟩ := Option.map_eq_some'.1 h
    exact abs_nonneg y
  · show (jsNumber "-60").map (fun x => |x|) = some 60
    have h60 : jsNumber "-60" = some ((⟨-1, 60, 0, 0, 0⟩ : FloatParts).val) := rfl
    rw [h60, Option.map_some']
    congr 1
    norm_num [FloatParts.val]

/-- Witness for C8: the nonnegativity invariant applied to the sample row. -/
theorem spec_C8_witness : (0 : ℚ) ≤ 60 :=
  spec_C8.1 sampleRow 60 spec_C8.2.1

/-- C9: the legend gradient samples `createColorScale` at exactly the 51
values `k / 50`, `k = 0, …, 50`, each stop at offset `2k%`. -/
theorem spec_C9 :
    legendStops.length = 51 ∧
    legendStops = (List.range 51).map fun k : ℕ =>
      (toString (2 * k) ++ "%", createColorScale ((k : ℚ) / 50)) := by
  have hr : d3Range 0 101 2 = (List.range 51).map fun k : ℕ => 2 * k := by decide
  have hmap : legendStops = (List.range 51).map fun k : ℕ =>
      (toString (2 * k) ++ "%", createColorScale (((2 * k : ℕ) : ℚ) / 100)) := by
    rw [legendStops, hr, List.map_map]
    rfl
  rw [hmap]
  refine ⟨by simp, ?_⟩
  apply List.map_congr_left
  intro k hk
  simp only [Prod.mk.injEq, true_and]
  exact congrArg createColorScale (by push_cast; ring)

/-- C10: on `[0, 1]` the scale always returns `some "rgb(r, g, b)"` with
integer channels in `[0, 255]`; the hex parser reads only characters 1–6,
so the trailing alpha pair of `"#ac26c4ff"` is ignored and no alpha ever
reaches the output. -/
theorem spec_C10 :
    (∀ t : ℚ, 0 ≤ t → t ≤ 1 →
      ∃ r g b : ℤ, 0 ≤ r ∧ r ≤ 255 ∧ 0 ≤ g ∧ g ≤ 255 ∧ 0 ≤ b ∧ b ≤ 255 ∧
        createColorScale t = some (rgbString r g b)) ∧
    parseHex "#ac26c4ff" = some (172, 38, 196) ∧
    parseHex "#ac26c4ff" = parseHex "#ac26c4" := by
  refine ⟨?_, parseHex_c3, by decide⟩
  intro t h0 h1
  rcases le_or_lt t 0.2 with hA | hA
  · have hc := channels_seg0 h0 hA
    have he0 : (0 : ℚ) ≤ (t - 0) / (0.2 - 0) := localT_nonneg (by norm_num) h0
    have he1 : (t - 0) / (0.2 - 0) ≤ 1 := localT_le_one (by norm_num) hA
    have hs0 := smoothstep_nonneg he0 he1
    have hs1 := smoothstep_le_one he0 he1
    obtain ⟨hr0, hr1⟩ := interpChannel_bounds 79 66 hs0 hs1
      (by norm_num) (by norm_num) (by norm_num) (by norm_num)
    obtain ⟨hg0, hg1⟩ := interpChannel_bounds 195 165 hs0 hs1
      (by norm_num) (by norm_num) (by norm_num) (by norm_num)
    obtain ⟨hb0, hb1⟩ := interpChannel_bounds 247 245 hs0 hs1
      (by norm_num) (by norm_num) (by norm_num) (by norm_num)
    exact ⟨_, _, _, hr0, hr1, hg0, hg1, hb0, hb1, by rw [createColorScale, hc]; rfl⟩
  rcases le_or_lt t 0.4 with hB | hB
  · have hc := channels_seg1 (le_of_lt hA) hB
    have he0 : (0 : ℚ) ≤ (t - 0.2) / (0.4 - 0.2) :=
      localT_nonneg (by norm_num) (le_of_lt hA)
    have he1 : (t - 0.2) / (0.4 - 0.2) ≤ 1 := localT_le_one (by norm_num) hB
    have hs0 := smoothstep_nonneg he0 he1
    have hs1 := smoothstep_le_one he0 he1
    obtain ⟨hr0, hr1⟩ := interpChannel_bounds 66 126 hs0 hs1
      (by norm_num) (by norm_num) (by norm_num) (by norm_num)
    obtain ⟨hg0, hg1⟩ := interpChannel_bounds 165 87 hs0 hs1
      (by norm_num) (by norm_num) (by norm_num) (by norm_num)
    obtain ⟨hb0, hb1⟩ := interpChannel_bounds 245 194 hs0 hs1
      (by norm_num) (by norm_num) (by norm_num) (by norm_num)
    exact ⟨_, _, _, hr0, hr1, hg0, hg1, hb0, hb1, by rw [createColorScale, hc]; rfl⟩
  rcases le_or_lt t 0.6 with hC | hC
  · have hc := channels_seg2 (le_of_lt hB) hC
    have he0 : (0 : ℚ) ≤ (t - 0.4) / (0.6 - 0.4) :=
      localT_nonneg (by norm_num) (le_of_lt hB)
    have he1 : (t - 0.4) / (0.6 - 0.4) ≤ 1 := localT_le_one (by norm_num) hC
    have hs0 := smoothstep_nonneg he0 he1
    have hs1 := smoothstep_le_one he0 he1
    obtain ⟨hr0, hr1⟩ := interpChannel_bounds 126 172 hs0 hs1
      (by norm_num) (by norm_num) (by norm_num) (by norm_num)
    obtain ⟨hg0, hg1⟩ := interpChannel_bounds 87 38 hs0 hs1
      (by norm_num) (by norm_num) (by norm_num) (by norm_num)
    obtain ⟨hb0, hb1⟩ := interpChannel_bounds 194 196 hs0 hs1
      (by norm_num) (by norm_num) (by norm_num) (by norm_num)
    exact ⟨_, _, _, hr0, hr1, hg0, hg1, hb0, hb1, by rw [createColorScale, hc]; rfl⟩
  rcases le_or_lt t 0.8 with hD | hD
  · have hc := channels_seg3 (le_of_lt hC) hD
    have he0 : (0 : ℚ) ≤ (t - 0.6) / (0.8 - 0.6) :=
      localT_nonneg (by norm_num) (le_of_lt hC)
    have he1 : (t - 0.6) / (0.8 - 0.6) ≤ 1 := localT_le_one (by norm_num) hD
    have hs0 := smoothstep_nonneg he0 he1
    have hs1 := smoothstep_le_one he0 he1
    obtain ⟨hr0, hr1⟩ := interpChannel_bounds 172 236 hs0 hs1
      (by norm_num) (by norm_num) (by norm_num) (by norm_num)
    obtain ⟨hg0, hg1⟩ := interpChannel_bounds 38 64 hs0 hs1
      (by norm_num) (by norm_num) (by norm_num) (by norm_num)
    obtain ⟨hb0, hb1⟩ := interpChannel_bounds 196 122 hs0 hs1
      (by norm_num) (by norm_num) (by norm_num) (by norm_num)
    exact ⟨_, _, _, hr0, hr1, hg0, hg1, hb0, hb1, by rw [createColorScale, hc]; rfl⟩
  · have hc := channels_seg4 (le_of_lt hD) h1
    have he0 : (0 : ℚ) ≤ (t - 0.8) / (1 - 0.8) :=
      localT_nonneg (by norm_num) (le_of_lt hD)
    have he1 : (t - 0.8) / (1 - 0.8) ≤ 1 := localT_le_one (by norm_num) h1
    have hs0 := smoothstep_nonneg he0 he1
    have hs1 := smoothstep_le_one he0 he1
    obtain ⟨hr0, hr1⟩ := interpChannel_bounds 236 239 hs0 hs1
      (by norm_num) (by norm_num) (by norm_num) (by norm_num)
    obtain ⟨hg0, hg1⟩ := interpChannel_bounds 64 83 hs0 hs1
      (by norm_num) (by norm_num) (by norm_num) (by norm_num)
    obtain ⟨hb0, hb1⟩ := interpChannel_bounds 122 80 hs0 hs1
      (by norm_num) (by norm_num) (by norm_num) (by norm_num)
    exact ⟨_, _, _, hr0, hr1, hg0, hg1, hb0, hb1, by rw [createColorScale, hc]; rfl⟩

/-- Witness for C10: `t = 1/2`. -/
theorem spec_C10_witness :
    ∃ r g b : ℤ, 0 ≤ r ∧ r ≤ 255 ∧ 0 ≤ g ∧ g ≤ 255 ∧ 0 ≤ b ∧ b ≤ 255 ∧
      createColorScale (1 / 2) = some (rgbString r g b) :=
  spec_C10.1 (1 / 2) (by norm_num) (by norm_num)

end MapJS
